import Mathlib

/-!
Shallow embedding of the redis-from-scratch server (app/redis_server.py,
app/redis_command_parser.py, app/main.py, app/data.py) and proofs of the
frozen specification claims.

Python strings are modelled as lists of Unicode code points (`PyStr`), byte
streams as lists of byte values (`Bytes`).  Wall-clock times are modelled as
rationals (Python floats idealized).  Fallible Python code (raised
exceptions) is modelled with `Except`.
-/

deriving instance DecidableEq for Except

namespace RedisFromScratch

/-- A Python `str`: a sequence of Unicode code points. -/
abbrev PyStr := List Nat

/-- A Python `bytes`: a sequence of byte values (each < 256). -/
abbrev Bytes := List Nat

/-- Turn a Lean string literal into the code-point list of the Python str. -/
def str2py (s : String) : PyStr := s.data.map Char.toNat

/-- UTF-8 encoding of one code point (Python `str.encode` per character). -/
def utf8EncodeChar (c : Nat) : Bytes :=
  if c < 0x80 then [c]
  else if c < 0x800 then [0xC0 + c / 64, 0x80 + c % 64]
  else if c < 0x10000 then [0xE0 + c / 4096, 0x80 + (c / 64) % 64, 0x80 + c % 64]
  else [0xF0 + c / 262144, 0x80 + (c / 4096) % 64, 0x80 + (c / 64) % 64, 0x80 + c % 64]

/-- UTF-8 encoding of a Python string (`str.encode` with encoding utf-8). -/
def utf8Encode (s : PyStr) : Bytes := (s.map utf8EncodeChar).flatten

/-- UTF-8 decoding with explicit fuel; `none` models `UnicodeDecodeError`
(truncated sequences, bad continuation bytes, overlong forms, surrogates). -/
def utf8DecodeAux : Nat → Bytes → Option PyStr
  | _, [] => some []
  | 0, _ :: _ => none
  | fuel + 1, b :: rest =>
    if b < 0x80 then
      (utf8DecodeAux fuel rest).map (b :: ·)
    else if 0xC2 ≤ b ∧ b < 0xE0 then
      match rest with
      | b2 :: rest2 =>
        if 0x80 ≤ b2 ∧ b2 < 0xC0 then
          (utf8DecodeAux fuel rest2).map (((b - 0xC0) * 64 + (b2 - 0x80)) :: ·)
        else none
      | [] => none
    else if 0xE0 ≤ b ∧ b < 0xF0 then
      match rest with
      | b2 :: b3 :: rest3 =>
        if 0x80 ≤ b2 ∧ b2 < 0xC0 ∧ 0x80 ≤ b3 ∧ b3 < 0xC0 then
          let c := (b - 0xE0) * 4096 + (b2 - 0x80) * 64 + (b3 - 0x80)
          if c < 0x800 ∨ (0xD800 ≤ c ∧ c ≤ 0xDFFF) then none
          else (utf8DecodeAux fuel rest3).map (c :: ·)
        else none
      | _ => none
    else if 0xF0 ≤ b ∧ b < 0xF5 then
      match rest with
      | b2 :: b3 :: b4 :: rest4 =>
        if 0x80 ≤ b2 ∧ b2 < 0xC0 ∧ 0x80 ≤ b3 ∧ b3 < 0xC0 ∧ 0x80 ≤ b4 ∧ b4 < 0xC0 then
          let c := (b - 0xF0) * 262144 + (b2 - 0x80) * 4096 + (b3 - 0x80) * 64 + (b4 - 0x80)
          if c < 0x10000 ∨ 0x10FFFF < c then none
          else (utf8DecodeAux fuel rest4).map (c :: ·)
        else none
      | _ => none
    else none

/-- UTF-8 decoding of a byte string (Python `bytes.decode` with utf-8). -/
def utf8Decode (bs : Bytes) : Option PyStr := utf8DecodeAux (bs.length + 1) bs

/-- Decimal rendering of a natural number, with fuel (Python `str(n)`). -/
def renderNatFuel : Nat → Nat → List Nat
  | 0, _ => []
  | fuel + 1, n =>
    if n < 10 then [n + 48] else renderNatFuel fuel (n / 10) ++ [n % 10 + 48]

/-- Decimal rendering of a natural number, as the code points of `str(n)`. -/
def renderNat (n : Nat) : List Nat := renderNatFuel (n + 1) n

/-- Decimal rendering of an integer, as the code points of `str(i)`. -/
def renderInt (i : Int) : List Nat :=
  if i < 0 then 45 :: renderNat i.natAbs else renderNat i.natAbs

/-- Left-to-right accumulation of decimal digits; `none` on a non-digit. -/
def parseAcc (a : Nat) : List Nat → Option Nat
  | [] => some a
  | c :: cs => if 48 ≤ c ∧ c ≤ 57 then parseAcc (10 * a + (c - 48)) cs else none

/-- Python `int(x)` on a string or byte sequence of an optional sign and
decimal digits; `none` models the raised `ValueError`.  (Surrounding
whitespace and underscore separators, which Python also accepts, never occur
in this codebase's inputs and are not modelled.) -/
def parsePyIntChars : List Nat → Option Int
  | [] => none
  | c :: rest =>
    if c = 45 then
      match rest with
      | [] => none
      | _ => (parseAcc 0 rest).map (fun n => -(n : Int))
    else if c = 43 then
      match rest with
      | [] => none
      | _ => (parseAcc 0 rest).map (fun n => (n : Int))
    else (parseAcc 0 (c :: rest)).map (fun n => (n : Int))

/-- Read one line from a byte stream, up to and including the first LF
(`file.readline()` on a binary file); the whole stream if no LF occurs. -/
def readline : Bytes → Bytes × Bytes
  | [] => ([], [])
  | b :: rest =>
    if b = 10 then ([10], rest)
    else
      let p := readline rest
      (b :: p.1, p.2)

/-- Python `.rstrip(b"\r\n")`: drop every trailing CR or LF. -/
def rstripCRLF (l : List Nat) : List Nat :=
  (l.reverse.dropWhile (fun c => c == 13 || c == 10)).reverse

/-- Python `str.upper()` restricted to ASCII letters (the only case that can
make a string compare equal to the ASCII literal it is checked against). -/
def pyUpper (s : PyStr) : PyStr :=
  s.map (fun c => if 97 ≤ c ∧ c ≤ 122 then c - 32 else c)

/-- The exceptions raised by the embedded code paths. -/
inductive PyExc where
  | commandError (msg : PyStr)
  | redisCommandError (msg : PyStr)
  | valueError
  | indexError
  | unicodeDecodeError
  | fuelExhausted
  deriving DecidableEq

/-- A decoded RESP protocol value (`RedisCommandParser._data_handlers` results):
simple string, error, integer, bulk string, array, or map.  The map is kept as
the decoded key/value pairs in order; no claim observes dict key collapsing. -/
inductive RValue where
  | str (s : PyStr)
  | err (msg : PyStr)
  | int (n : Int)
  | arr (items : List RValue)
  | dict (pairs : List (RValue × RValue))

/-- Python `zip(elements[0::2], elements[1::2])`: adjacent pairing, truncating
a trailing odd element. -/
def pairUp : List RValue → List (RValue × RValue)
  | a :: b :: rest => (a, b) :: pairUp rest
  | _ => []

/-- Decode `n` successive values with the element decoder `p`, threading the
unconsumed stream (the comprehension loops in `_handle_array`/`_handle_dict`). -/
def parseManyWith (p : Bytes → Except PyExc (RValue × Bytes)) :
    Nat → Bytes → Except PyExc (List RValue × Bytes)
  | 0, bs => .ok ([], bs)
  | n + 1, bs =>
    match p bs with
    | .error e => .error e
    | .ok (v, bs2) =>
      match parseManyWith p n bs2 with
      | .error e => .error e
      | .ok (vs, bs3) => .ok (v :: vs, bs3)

/-- The shared first step of `_handle_integer`, `_handle_bulk_string`,
`_handle_array` and `_handle_dict`: `int(self.fsocket.readline().rstrip(b"\r\n"))`,
returning the parsed count and the unconsumed stream. -/
def readIntLine (bs : Bytes) : Except PyExc (Int × Bytes) :=
  let p := readline bs
  match parsePyIntChars (rstripCRLF p.1) with
  | none => .error .valueError
  | some n => .ok (n, p.2)

/-- `_handle_simple_string` (and the line framing of `_handle_error`):
`self.fsocket.readline().decode("utf-8").rstrip("\r\n")`. -/
def handleSimpleStringLine (bs : Bytes) : Except PyExc (PyStr × Bytes) :=
  let p := readline bs
  match utf8Decode p.1 with
  | none => .error .unicodeDecodeError
  | some line => .ok (rstripCRLF line, p.2)

/-- `RedisCommandParser._handle_bulk_string`:
`length = int(readline().rstrip()); length += 2; read(length)[:-2].decode("utf-8")`.
A Python `read(n)` returns at most `n` bytes (everything for negative `n`). -/
def handleBulkString (bs : Bytes) : Except PyExc (PyStr × Bytes) :=
  match readIntLine bs with
  | .error e => .error e
  | .ok (L, r) =>
    let length : Int := L + 2
    let cnt := if length < 0 then r.length else min length.toNat r.length
    let chunk := r.take cnt
    match utf8Decode (chunk.take (chunk.length - 2)) with
    | none => .error .unicodeDecodeError
    | some s => .ok (s, r.drop cnt)

/-- `RedisCommandParser._parse_resp_input_data` and its data-handler
dispatch, over an explicit byte stream and recursion fuel (the fuel only
bounds array/dict nesting; `fuelExhausted` is unreachable at the fuel chosen
by `decodeNext`).  Reading the tag byte from an exhausted stream raises
`CommandError("Empty data type / first byte.")` (the spec's EndOfStream); a
tag byte outside the handler table raises the unsupported-data-type
`CommandError`, and a tag byte ≥ 0x80 fails `.decode("utf-8")` first. -/
def parseRespAux : Nat → Bytes → Except PyExc (RValue × Bytes)
  | 0, _ => .error .fuelExhausted
  | _ + 1, [] => .error (.commandError (str2py ("Empty data type / first byte.")))
  | fuel + 1, b :: rest =>
    if b = 43 then
      (handleSimpleStringLine rest).map (fun p => (.str p.1, p.2))
    else if b = 45 then
      (handleSimpleStringLine rest).map (fun p => (.err p.1, p.2))
    else if b = 58 then
      (readIntLine rest).map (fun p => (.int p.1, p.2))
    else if b = 36 then
      (handleBulkString rest).map (fun p => (.str p.1, p.2))
    else if b = 42 then
      match readIntLine rest with
      | .error e => .error e
      | .ok (n, r) =>
        (parseManyWith (parseRespAux fuel) n.toNat r).map (fun p => (.arr p.1, p.2))
    else if b = 37 then
      match readIntLine rest with
      | .error e => .error e
      | .ok (n, r) =>
        (parseManyWith (parseRespAux fuel) (2 * n.toNat) r).map (fun p => (.dict (pairUp p.1), p.2))
    else if 128 ≤ b then
      .error .unicodeDecodeError
    else
      .error (.commandError (str2py ("Unsupported data type") ++ [b]))

/-- Decode the next framed value off the stream.  One byte of input is
consumed per recursion step, so `length + 1` fuel can never run out. -/
def decodeNext (bs : Bytes) : Except PyExc (RValue × Bytes) :=
  parseRespAux (bs.length + 1) bs

/-- `ServerRole` from app/data.py: a `StrEnum` whose `auto()` values are the
lowercased member names. -/
inductive ServerRole where
  | master
  | slave
  deriving DecidableEq

/-- The string value of a `ServerRole` member (`auto()` lowercases the name,
and `StrEnum` members format as their value). -/
def roleStr : ServerRole → PyStr
  | .master => str2py ("master")
  | .slave => str2py ("slave")

/-- The fixed default replication id from `ServerInfo` (app/data.py). -/
def defaultReplid : PyStr := str2py ("8371b4fb1155b71f4a04d3e1bc3e18c4a990aeeb")

/-- `ServerInfo` from app/data.py. -/
structure ServerInfo where
  role : ServerRole
  master_replid : PyStr := defaultReplid
  master_repl_offset : Int := 0

/-- The configuration of a standalone (non-replica) server: role MASTER and
the default replication id and offset. -/
def defaultMasterInfo : ServerInfo := { role := .master }

/-- `RedisData` from app/data.py: a stored value with optional absolute
expiry time (seconds, `time.time()` scale). -/
structure RedisData where
  value : PyStr
  expire_at : Option ℚ
  deriving DecidableEq

/-- The in-memory key-value storage (`self._redis_storage`, a Python dict). -/
abbrev Store := PyStr → Option RedisData

/-- The freshly created empty storage. -/
def store0 : Store := fun _ => none

/-- `self._redis_storage[key] = data`. -/
def storeSet (store : Store) (k : PyStr) (d : RedisData) : Store :=
  fun q => if q = k then some d else store q

/-- Modelled from the spec: the `RedisCommand` enumeration imported by
app/redis_server.py is not among the source files; the spec fixes the
enumerated set as PING, ECHO, SET, GET, DELETE, INFO, REPLCONF, PSYNC. -/
inductive RedisCommand where
  | ping
  | echo
  | set
  | get
  | delete
  | info
  | replconf
  | psync
  deriving DecidableEq

/-- `RedisServer._generate_bulk_string`: None becomes the null bulk marker,
otherwise a length-prefixed frame; the length is `len(string)`, the CODE
POINT count of the Python str (not its UTF-8 byte count). -/
def generateBulkString : Option PyStr → PyStr
  | none => str2py ("$-1\r\n")
  | some s => str2py ("$") ++ renderNat s.length ++ str2py ("\r\n") ++ s ++ str2py ("\r\n")

/-- The `+OK\r\n` reply bytes as written by `_send_response`. -/
def okBytes : Bytes := utf8Encode (str2py ("+OK\r\n"))

/-- The `+PONG\r\n` reply bytes. -/
def pongBytes : Bytes := utf8Encode (str2py ("+PONG\r\n"))

/-- The `$-1\r\n` null bulk reply bytes. -/
def nullBulkBytes : Bytes := utf8Encode (str2py ("$-1\r\n"))

/-- The hard-coded empty-RDB snapshot payload from the PSYNC branch
(`bytes.fromhex(rdb_file_hex)`), 88 bytes. -/
def rdbBlob : Bytes :=
  [82, 69, 68, 73, 83, 48, 48, 49, 49, 250, 9, 114, 101, 100, 105, 115, 45, 118,
   101, 114, 5, 55, 46, 50, 46, 48, 250, 10, 114, 101, 100, 105, 115, 45, 98,
   105, 116, 115, 192, 64, 250, 5, 99, 116, 105, 109, 101, 194, 109, 8, 188,
   101, 250, 8, 117, 115, 101, 100, 45, 109, 101, 109, 194, 176, 196, 16, 0,
   250, 8, 97, 111, 102, 45, 98, 97, 115, 101, 192, 0, 255, 240, 110, 59, 254,
   192, 255, 90, 162]

/-- The second PSYNC write: `f"$\x7blen(rdb_empty_file)\x7d\r\n".encode() +
rdb_empty_file` — a declared byte count, CRLF, then the raw payload with no
trailing CRLF. -/
def rdbFrame : Bytes :=
  str2py ("$") ++ renderNat rdbBlob.length ++ str2py ("\r\n") ++ rdbBlob

/-- The INFO replication payload string built in `execute_command`: three
`role:` / `master_replid:` / `master_repl_offset:` lines, each terminated by
CRLF (including the last). -/
def infoReplicationPayload (conf : ServerInfo) : PyStr :=
  str2py ("role:") ++ roleStr conf.role ++ str2py ("\r\n") ++
  str2py ("master_replid:") ++ conf.master_replid ++ str2py ("\r\n") ++
  str2py ("master_repl_offset:") ++ renderInt conf.master_repl_offset ++ str2py ("\r\n")

/-- The string `f"+FULLRESYNC \x7bmid\x7d \x7boffset\x7d"` handed to
`_generate_bulk_string` in the PSYNC branch. -/
def fullresyncText (conf : ServerInfo) : PyStr :=
  str2py ("+FULLRESYNC ") ++ conf.master_replid ++ str2py (" ") ++
  renderInt conf.master_repl_offset

/-- `RedisServer.execute_command`: one dispatched command against the store
at wall-clock time `now`.  Returns the store after the call (unchanged
whenever an exception is raised before the storage assignment) and either
the list of byte strings written by `_send_response`, in order, or the
raised exception (every raise in the source occurs before any write of the
same branch). -/
def executeCommand (conf : ServerInfo) (cmd : RedisCommand) (args : List PyStr)
    (store : Store) (now : ℚ) : Store × Except PyExc (List Bytes) :=
  match cmd with
  | .ping => (store, .ok [pongBytes])
  | .echo =>
    match args with
    | [] => (store, .error .indexError)
    | a :: _ => (store, .ok [utf8Encode (generateBulkString (some a))])
  | .set =>
    match args with
    | [k, v] => (storeSet store k ⟨v, none⟩, .ok [okBytes])
    | [k, v, expiryCmd, expireInMs] =>
      if pyUpper expiryCmd ≠ str2py ("PX") then
        (store, .error (.redisCommandError (str2py ("The argument for expiring the key is PX."))))
      else
        match parsePyIntChars expireInMs with
        | none => (store, .error .valueError)
        | some ms =>
          (storeSet store k ⟨v, some (now + (ms : ℚ) / 1000)⟩, .ok [okBytes])
    | _ => (store, .error (.redisCommandError (str2py ("SET doesn't support the command"))))
  | .get =>
    match args with
    | [] => (store, .error .indexError)
    | k :: _ =>
      match store k with
      | none => (store, .ok [nullBulkBytes])
      | some d =>
        match d.expire_at with
        | some e =>
          if e < now then (store, .ok [nullBulkBytes])
          else (store, .ok [utf8Encode (generateBulkString (some d.value))])
        | none => (store, .ok [utf8Encode (generateBulkString (some d.value))])
  | .delete => (store, .ok [])
  | .info =>
    match args with
    | [] => (store, .error .indexError)
    | a :: _ =>
      if a = str2py ("replication") then
        (store, .ok [utf8Encode (generateBulkString (some (infoReplicationPayload conf)))])
      else (store, .ok [])
  | .replconf => (store, .ok [okBytes])
  | .psync =>
    (store, .ok [utf8Encode (generateBulkString (some (fullresyncText conf))), rdbFrame])

/-- The failing SET argument shapes: arity neither 2 nor 4, a modifier that
is not case-insensitively PX, or a milliseconds argument `int()` rejects. -/
def badSetArgs : List PyStr → Bool
  | [_, _] => false
  | [_, _, expiryCmd, expireInMs] =>
    pyUpper expiryCmd ≠ str2py ("PX") || (parsePyIntChars expireInMs).isNone
  | _ => true

/-- Whether an `Except` result is an error. -/
def isErr : Except PyExc (List Bytes) → Bool
  | .error _ => true
  | .ok _ => false

/-- Modelled from the spec: the value-to-command step of
`RedisCommandParser.get_redis_command` (absent from the source files) maps a
decoded command name onto the enumerated command set; an unknown name is an
error rather than a crash. -/
def commandOfName (s : PyStr) : Option RedisCommand :=
  if s = str2py ("PING") then some .ping
  else if s = str2py ("ECHO") then some .echo
  else if s = str2py ("SET") then some .set
  else if s = str2py ("GET") then some .get
  else if s = str2py ("DELETE") then some .delete
  else if s = str2py ("INFO") then some .info
  else if s = str2py ("REPLCONF") then some .replconf
  else if s = str2py ("PSYNC") then some .psync
  else none

/-- Extract the decoded strings of an array frame, failing on any
non-string element. -/
def collectStrs : List RValue → Option (List PyStr)
  | [] => some []
  | .str s :: rest => (collectStrs rest).map (s :: ·)
  | _ => none

/-- Modelled from the spec: `RedisCommandParser.get_redis_command` (absent
from the source files) decodes one framed value — every client command is an
Array of BulkStrings whose first element is the command name — and returns
the command with its arguments and the unconsumed stream. -/
def getRedisCommand (bs : Bytes) : Except PyExc ((RedisCommand × List PyStr) × Bytes) :=
  match decodeNext bs with
  | .error e => .error e
  | .ok (v, rest) =>
    match v with
    | .arr items =>
      match collectStrs items with
      | some (name :: args) =>
        match commandOfName name with
        | some cmd => .ok ((cmd, args), rest)
        | none => .error (.commandError (str2py ("Unknown command name")))
      | _ => .error (.commandError (str2py ("Malformed command frame")))
    | _ => .error (.commandError (str2py ("Malformed command frame")))

/-- The observable outcome of one `RedisServer.run` session: the storage
when the loop exits, the reply byte strings written in order, and whether
the `finally` block has released the file wrapper and the socket. -/
structure SessionTrace where
  finalStore : Store
  out : List Bytes
  closed : Bool

/-- The `RedisServer.run` loop: read a command, execute it, repeat; any
exception (decode failure or dispatch failure) ends the loop, and the
`finally` block closes the file wrapper and the socket on every exit path.
Fuel decreases once per iteration; each decoded command consumes at least
one byte, so `length + 1` fuel never runs out. -/
def runSessionAux (conf : ServerInfo) (now : ℚ) :
    Nat → Store → Bytes → List Bytes → SessionTrace
  | 0, st, _, out => ⟨st, out, true⟩
  | fuel + 1, st, bs, out =>
    match getRedisCommand bs with
    | .error _ => ⟨st, out, true⟩
    | .ok ((cmd, args), rest) =>
      match executeCommand conf cmd args st now with
      | (st2, .error _) => ⟨st2, out, true⟩
      | (st2, .ok ws) => runSessionAux conf now fuel st2 rest (out ++ ws)

/-- Run one session over an input byte stream, starting from a store. -/
def runSession (conf : ServerInfo) (store : Store) (now : ℚ) (bs : Bytes) : SessionTrace :=
  runSessionAux conf now (bs.length + 1) store bs []

/-- A client-side Array-of-BulkStrings command frame (the framing every
command in the source uses on the wire, e.g. the handshake frames). -/
def encodeCommandFrame (args : List PyStr) : Bytes :=
  utf8Encode (str2py ("*") ++ renderNat args.length ++ str2py ("\r\n")) ++
  (args.map (fun a => utf8Encode (generateBulkString (some a)))).flatten

/-- The observable outcome of `perform_handshake_with_master` (app/main.py):
the frames written to the master in order, the number of reply lines read,
and success or the raised exception message. -/
structure HandshakeTrace where
  sent : List Bytes
  consumed : Nat
  result : Except PyStr Unit

/-- Handshake step 1 frame: `*1\r\n$4\r\nPING\r\n`. -/
def pingFrame : Bytes := str2py ("*1\r\n$4\r\nPING\r\n")

/-- Handshake step 2 frame: REPLCONF listening-port with the replica's own
port rendered in decimal and its digit count as the bulk length. -/
def replconfPortFrame (redisPort : Nat) : Bytes :=
  str2py ("*3\r\n$8\r\nREPLCONF\r\n$14\r\nlistening-port\r\n$") ++
  renderNat (renderNat redisPort).length ++ str2py ("\r\n") ++
  renderNat redisPort ++ str2py ("\r\n")

/-- Handshake step 3 frame: `REPLCONF capa psync2`. -/
def replconfCapaFrame : Bytes :=
  str2py ("*3\r\n$8\r\nREPLCONF\r\n$4\r\ncapa\r\n$6\r\npsync2\r\n")

/-- Handshake step 4 frame: `PSYNC ? -1`. -/
def psyncFrame : Bytes :=
  str2py ("*3\r\n$5\r\nPSYNC\r\n$1\r\n?\r\n$2\r\n-1\r\n")

/-- `perform_handshake_with_master` (app/main.py) over the stream of reply
lines the master sends back (a missing line reads as the empty bytes of a
closed stream).  Each step writes its frame, then reads and checks one
reply; the first mismatch raises and nothing further is written or read;
the PSYNC frame is written without awaiting any reply. -/
def performHandshakeWithMaster (redisPort : Nat) (replies : List Bytes) : HandshakeTrace :=
  if rstripCRLF (replies.getD 0 []) ≠ str2py ("+PONG") then
    ⟨[pingFrame], 1, .error (str2py ("Ping failed"))⟩
  else if rstripCRLF (replies.getD 1 []) ≠ str2py ("+OK") then
    ⟨[pingFrame, replconfPortFrame redisPort], 2, .error (str2py ("Reply failed"))⟩
  else if rstripCRLF (replies.getD 2 []) ≠ str2py ("+OK") then
    ⟨[pingFrame, replconfPortFrame redisPort, replconfCapaFrame], 3,
      .error (str2py ("Reply failed"))⟩
  else
    ⟨[pingFrame, replconfPortFrame redisPort, replconfCapaFrame, psyncFrame], 3, .ok ()⟩

/-- The replica branch of `main` (app/main.py): the handshake runs before
`socket.create_server`, so a handshake exception aborts startup — the
accept loop is reached exactly when the handshake succeeded. -/
def replicaStartup (redisPort : Nat) (replies : List Bytes) : Except PyStr Unit :=
  (performHandshakeWithMaster redisPort replies).result

/-! ## Decimal rendering and parsing -/

theorem renderNatFuel_digits (f : Nat) :
    ∀ n, n < f → ∀ c ∈ renderNatFuel f n, 48 ≤ c ∧ c ≤ 57 := by
  induction f with
  | zero => intro n h; omega
  | succ f ih =>
    intro n h c hc
    unfold renderNatFuel at hc
    split at hc
    · simp only [List.mem_singleton] at hc
      omega
    · rcases List.mem_append.mp hc with h1 | h2
      · have hdiv : n / 10 < n := Nat.div_lt_self (by omega) (by norm_num)
        exact ih (n / 10) (by omega) c h1
      · simp only [List.mem_singleton] at h2
        have := Nat.mod_lt n (show 0 < 10 by norm_num)
        omega

theorem renderNatFuel_ne_nil (f : Nat) (n : Nat) (h : 0 < f) :
    renderNatFuel f n ≠ [] := by
  cases f with
  | zero => omega
  | succ f =>
    unfold renderNatFuel
    split
    · simp
    · simp

theorem renderNat_digits (n : Nat) : ∀ c ∈ renderNat n, 48 ≤ c ∧ c ≤ 57 :=
  renderNatFuel_digits (n + 1) n (Nat.lt_succ_self n)

theorem parseAcc_append (a : Nat) (xs ys : List Nat) :
    parseAcc a (xs ++ ys) = (parseAcc a xs).bind (fun b => parseAcc b ys) := by
  induction xs generalizing a with
  | nil => simp [parseAcc]
  | cons c cs ih =>
    simp only [List.cons_append, parseAcc]
    split
    · exact ih _
    · simp

theorem parseAcc_renderNatFuel (f : Nat) :
    ∀ n a, n < f →
      parseAcc a (renderNatFuel f n) = some (a * 10 ^ (renderNatFuel f n).length + n) := by
  induction f with
  | zero => intro n a h; omega
  | succ f ih =>
    intro n a h
    by_cases h10 : n < 10
    · have hshow : renderNatFuel (f + 1) n = [n + 48] := by
        unfold renderNatFuel
        rw [if_pos h10]
      have hdig : 48 ≤ n + 48 ∧ n + 48 ≤ 57 := by omega
      rw [hshow]
      simp [parseAcc, hdig]
      omega
    · have hdiv : n / 10 < n := Nat.div_lt_self (by omega) (by norm_num)
      have hshow : renderNatFuel (f + 1) n = renderNatFuel f (n / 10) ++ [n % 10 + 48] := by
        rw [renderNatFuel, if_neg h10]
      have hdig : 48 ≤ n % 10 + 48 ∧ n % 10 + 48 ≤ 57 := by omega
      have hsub : n % 10 + 48 - 48 = n % 10 := by omega
      rw [hshow, parseAcc_append, ih (n / 10) a (by omega)]
      simp only [Option.some_bind, parseAcc, hdig, and_self, if_true, hsub,
        List.length_append, List.length_singleton]
      congr 1
      have hdm : 10 * (n / 10) + n % 10 = n := by omega
      calc 10 * (a * 10 ^ (renderNatFuel f (n / 10)).length + n / 10) + n % 10
          = a * (10 ^ (renderNatFuel f (n / 10)).length * 10) + (10 * (n / 10) + n % 10) := by
            ring
        _ = a * 10 ^ ((renderNatFuel f (n / 10)).length + 1) + n := by
            rw [hdm, pow_succ]

theorem parseAcc_renderNat (n : Nat) :
    parseAcc 0 (renderNat n) = some n := by
  have := parseAcc_renderNatFuel (n + 1) n 0 (Nat.lt_succ_self n)
  simpa [renderNat] using this

theorem parsePyIntChars_renderNat (n : Nat) :
    parsePyIntChars (renderNat n) = some (n : Int) := by
  rcases hr : renderNat n with _ | ⟨c, cs⟩
  · exact absurd hr (renderNatFuel_ne_nil (n + 1) n (Nat.succ_pos n))
  · have hc : 48 ≤ c ∧ c ≤ 57 := renderNat_digits n c (by rw [hr]; simp)
    have h45 : c ≠ 45 := by omega
    have h43 : c ≠ 43 := by omega
    have hp : parseAcc 0 (c :: cs) = some n := by rw [← hr]; exact parseAcc_renderNat n
    simp [parsePyIntChars, h45, h43, hp]

theorem renderNat_no_lf (n : Nat) : 10 ∉ renderNat n := by
  intro h
  have := renderNat_digits n 10 h
  omega

/-! ## Line reading and stripping -/

theorem rstripCRLF_append_crlf (xs : List Nat) (h : ∀ c ∈ xs, c ≠ 13 ∧ c ≠ 10) :
    rstripCRLF (xs ++ [13, 10]) = xs := by
  unfold rstripCRLF
  have hrev : (xs ++ [13, 10]).reverse = 10 :: 13 :: xs.reverse := by simp
  rw [hrev, List.dropWhile_cons, List.dropWhile_cons]
  norm_num
  rcases hx : xs.reverse with _ | ⟨a, t⟩
  · simp only [List.reverse_eq_nil_iff] at hx
    simp [hx]
  · have ha : a ∈ xs := List.mem_reverse.mp (by rw [hx]; simp)
    have h13 := (h a ha).1
    have h10 := (h a ha).2
    rw [List.dropWhile_cons]
    have hpa : (a == 13 || a == 10) = false := by simp [h13, h10]
    rw [hpa]
    simp only [Bool.false_eq_true, if_false]
    rw [← hx, List.reverse_reverse]

/-! ## UTF-8 on ASCII content -/

theorem utf8EncodeChar_ascii (c : Nat) (h : c < 128) : utf8EncodeChar c = [c] := by
  simp [utf8EncodeChar, h]

theorem utf8Encode_ascii (s : PyStr) (h : ∀ c ∈ s, c < 128) : utf8Encode s = s := by
  induction s with
  | nil => rfl
  | cons c cs ih =>
    have hc : c < 128 := h c (by simp)
    have hcs : ∀ x ∈ cs, x < 128 := fun x hx => h x (by simp [hx])
    simp [utf8Encode, utf8EncodeChar_ascii c hc] at ih ⊢
    exact ih hcs

theorem utf8Encode_append (a b : PyStr) :
    utf8Encode (a ++ b) = utf8Encode a ++ utf8Encode b := by
  simp [utf8Encode]

theorem utf8DecodeAux_ascii :
    ∀ (s : Bytes) (f : Nat), s.length ≤ f → (∀ c ∈ s, c < 128) →
      utf8DecodeAux f s = some s := by
  intro s
  induction s with
  | nil => intro f _ _; cases f <;> rfl
  | cons c cs ih =>
    intro f hf h
    cases f with
    | zero => simp at hf
    | succ f =>
      have hc : c < 128 := h c (by simp)
      have hcs : ∀ x ∈ cs, x < 128 := fun x hx => h x (by simp [hx])
      simp only [utf8DecodeAux, if_pos hc]
      rw [ih f (by simpa using hf) hcs]
      rfl

theorem utf8Decode_ascii (s : Bytes) (h : ∀ c ∈ s, c < 128) : utf8Decode s = some s :=
  utf8DecodeAux_ascii s (s.length + 1) (Nat.le_succ _) h

/-! ## Decoding framed values -/

theorem parseRespAux_bulk_tag (f : Nat) (rest : Bytes) :
    parseRespAux (f + 1) (36 :: rest) =
      (handleBulkString rest).map (fun p => (RValue.str p.1, p.2)) := by
  simp [parseRespAux]

theorem parseRespAux_array_tag (f : Nat) (rest : Bytes) :
    parseRespAux (f + 1) (42 :: rest) =
      (match readIntLine rest with
       | .error e => .error e
       | .ok (n, r) =>
         (parseManyWith (parseRespAux f) n.toNat r).map (fun p => (RValue.arr p.1, p.2))) := by
  simp [parseRespAux]

theorem generateBulkString_some (s : PyStr) :
    generateBulkString (some s) = [36] ++ renderNat s.length ++ [13, 10] ++ s ++ [13, 10] := rfl

theorem utf8Encode_bulk (s : PyStr) (hs : ∀ c ∈ s, c < 128) :
    utf8Encode (generateBulkString (some s)) =
      [36] ++ renderNat s.length ++ [13, 10] ++ s ++ [13, 10] := by
  rw [generateBulkString_some]
  apply utf8Encode_ascii
  intro c hc
  by_cases h1 : c ∈ s
  · exact hs c h1
  · by_cases h2 : c ∈ renderNat s.length
    · have := renderNat_digits s.length c h2
      omega
    · simp only [List.append_assoc, List.mem_append, List.mem_cons, List.not_mem_nil,
        or_false, h1, h2, false_or] at hc
      omega

theorem readline_digits (ds : List Nat) (h : 10 ∉ ds) (x : Bytes) :
    readline (ds ++ 13 :: 10 :: x) = (ds ++ [13, 10], x) := by
  induction ds with
  | nil => simp [readline]
  | cons c cs ih =>
    have hc : c ≠ 10 := fun e => h (by simp [e])
    have hm : 10 ∉ cs := fun m => h (List.mem_cons_of_mem _ m)
    simp [readline, hc, ih hm]

theorem rstripCRLF_render (n : Nat) : rstripCRLF (renderNat n ++ [13, 10]) = renderNat n := by
  apply rstripCRLF_append_crlf
  intro c hc
  have := renderNat_digits n c hc
  omega

theorem readIntLine_render (n : Nat) (x : Bytes) :
    readIntLine (renderNat n ++ 13 :: 10 :: x) = .ok ((n : Int), x) := by
  unfold readIntLine
  rw [readline_digits _ (renderNat_no_lf n) x]
  simp only [rstripCRLF_render, parsePyIntChars_renderNat]

theorem take_payload (s : PyStr) (rest : Bytes) :
    (s ++ 13 :: 10 :: rest).take (s.length + 2) = s ++ [13, 10] := by
  have h : s ++ 13 :: 10 :: rest = (s ++ [13, 10]) ++ rest := by simp
  rw [h]
  exact List.take_left' (by simp)

theorem drop_payload (s : PyStr) (rest : Bytes) :
    (s ++ 13 :: 10 :: rest).drop (s.length + 2) = rest := by
  have h : s ++ 13 :: 10 :: rest = (s ++ [13, 10]) ++ rest := by simp
  rw [h]
  exact List.drop_left' (by simp)

theorem handleBulkString_ascii (s : PyStr) (hs : ∀ c ∈ s, c < 128) (rest : Bytes) :
    handleBulkString (renderNat s.length ++ 13 :: 10 :: (s ++ 13 :: 10 :: rest)) =
      .ok (s, rest) := by
  unfold handleBulkString
  rw [readIntLine_render]
  have hneg : ¬((s.length : Int) + 2 < 0) := by omega
  have htonat : ((s.length : Int) + 2).toNat = s.length + 2 := by omega
  have hlen : (s ++ 13 :: 10 :: rest).length = s.length + 2 + rest.length := by
    simp
    omega
  have hmin : min (((s.length : Int) + 2).toNat) (s ++ 13 :: 10 :: rest).length = s.length + 2 := by
    rw [htonat, hlen]
    omega
  have hchunk : (s ++ [13, 10]).take ((s ++ [13, 10]).length - 2) = s := by
    have h2 : (s ++ [13, 10]).length - 2 = s.length := by simp
    rw [h2]
    exact List.take_left' rfl
  simp only [if_neg hneg, hmin, take_payload, drop_payload, hchunk, utf8Decode_ascii s hs]

theorem parseRespAux_bulk_ascii (f : Nat) (s : PyStr) (hs : ∀ c ∈ s, c < 128) (rest : Bytes) :
    parseRespAux (f + 1) (utf8Encode (generateBulkString (some s)) ++ rest) =
      .ok (.str s, rest) := by
  have hre : utf8Encode (generateBulkString (some s)) ++ rest =
      36 :: (renderNat s.length ++ 13 :: 10 :: (s ++ 13 :: 10 :: rest)) := by
    rw [utf8Encode_bulk s hs]
    simp
  rw [hre, parseRespAux_bulk_tag, handleBulkString_ascii s hs rest]
  rfl

theorem parseManyWith_bulks (g : Nat) (args : List PyStr)
    (h : ∀ a ∈ args, ∀ c ∈ a, c < 128) (rest : Bytes) :
    parseManyWith (parseRespAux (g + 1)) args.length
      ((args.map (fun a => utf8Encode (generateBulkString (some a)))).flatten ++ rest) =
      .ok (args.map RValue.str, rest) := by
  induction args generalizing rest with
  | nil => simp [parseManyWith]
  | cons a as ih =>
    have ha : ∀ c ∈ a, c < 128 := h a (by simp)
    have has : ∀ x ∈ as, ∀ c ∈ x, c < 128 := fun x hx c hc => h x (by simp [hx]) c hc
    simp only [List.map_cons, List.flatten_cons, List.length_cons, List.append_assoc,
      parseManyWith]
    rw [parseRespAux_bulk_ascii g a ha]
    simp [ih has rest]

theorem collectStrs_map (l : List PyStr) : collectStrs (l.map RValue.str) = some l := by
  induction l with
  | nil => rfl
  | cons a as ih => simp [collectStrs, ih]



theorem decodeNext_commandFrame (name : PyStr) (args : List PyStr)
    (h : ∀ a ∈ name :: args, ∀ c ∈ a, c < 128) :
    decodeNext (encodeCommandFrame (name :: args)) =
      .ok (.arr ((name :: args).map RValue.str), []) := by
  have hhead : utf8Encode (str2py ("*") ++ renderNat (name :: args).length ++ str2py ("\r\n")) =
      [42] ++ renderNat (name :: args).length ++ [13, 10] := by
    have hsame : str2py ("*") ++ renderNat (name :: args).length ++ str2py ("\r\n") =
        [42] ++ renderNat (name :: args).length ++ [13, 10] := rfl
    rw [hsame]
    apply utf8Encode_ascii
    intro c hc
    by_cases h2 : c ∈ renderNat (name :: args).length
    · have := renderNat_digits (name :: args).length c h2
      omega
    · simp only [List.append_assoc, List.mem_append, List.mem_cons, List.not_mem_nil,
        or_false, h2, false_or] at hc
      omega
  have hfr : encodeCommandFrame (name :: args) =
      42 :: (renderNat (name :: args).length ++ 13 :: 10 ::
        (((name :: args).map (fun a => utf8Encode (generateBulkString (some a)))).flatten ++ [])) := by
    unfold encodeCommandFrame
    rw [hhead, List.append_nil]
    simp
  rw [hfr]
  unfold decodeNext
  have hlen : (42 :: (renderNat (name :: args).length ++ 13 :: 10 ::
      (((name :: args).map (fun a => utf8Encode (generateBulkString (some a)))).flatten ++ []))).length =
      ((renderNat (name :: args).length ++ 13 :: 10 ::
      (((name :: args).map (fun a => utf8Encode (generateBulkString (some a)))).flatten ++ [])).length) + 1 := by
    simp
  rw [hlen, parseRespAux_array_tag]
  rw [readIntLine_render ((name :: args).length)]
  have htn : (((name :: args).length : Int)).toNat = (name :: args).length :=
    Int.toNat_natCast _
  simp only [htn]
  rw [parseManyWith_bulks _ (name :: args) h []]
  rfl

theorem getRedisCommand_frame (name : PyStr) (args : List PyStr) (cmd : RedisCommand)
    (hname : commandOfName name = some cmd)
    (h : ∀ a ∈ name :: args, ∀ c ∈ a, c < 128) :
    getRedisCommand (encodeCommandFrame (name :: args)) = .ok ((cmd, args), []) := by
  unfold getRedisCommand
  rw [decodeNext_commandFrame name args h]
  simp only [List.map_cons, collectStrs, collectStrs_map, Option.map_some, Option.map_some', hname]

/-! ## Auxiliary facts for the handshake frames -/

theorem psyncFrame_ne_replconfPortFrame (port : Nat) :
    psyncFrame ≠ replconfPortFrame port := by
  intro h
  have h5 : psyncFrame[5]? = (replconfPortFrame port)[5]? := by rw [h]
  have hP : (replconfPortFrame port)[5]? = some 56 := by
    unfold replconfPortFrame
    simp only [List.append_assoc]
    rw [List.getElem?_append_left (by decide)]
    decide
  rw [hP] at h5
  exact absurd h5 (by decide)

/-! ## The claims -/

/-- Claim C1: for every key `k` and value `v`, `SET` with exactly the two
arguments `[k, v]` stores the entry with no expiry and replies `+OK\r\n`;
an immediately following `GET k` on the same store returns a BulkString
reply containing `v`, and a later `SET` of the same key overwrites the
earlier value with no error (last write wins). -/
theorem set_then_get_returns_value (conf : ServerInfo) (store : Store) (k v v2 : PyStr)
    (t0 t1 t2 t3 : ℚ) :
    executeCommand conf .set [k, v] store t0 =
      (storeSet store k ⟨v, none⟩, .ok [okBytes]) ∧
    executeCommand conf .get [k] (storeSet store k ⟨v, none⟩) t1 =
      (storeSet store k ⟨v, none⟩, .ok [utf8Encode (generateBulkString (some v))]) ∧
    executeCommand conf .set [k, v2] (storeSet store k ⟨v, none⟩) t2 =
      (storeSet (storeSet store k ⟨v, none⟩) k ⟨v2, none⟩, .ok [okBytes]) ∧
    executeCommand conf .get [k] (storeSet (storeSet store k ⟨v, none⟩) k ⟨v2, none⟩) t3 =
      (storeSet (storeSet store k ⟨v, none⟩) k ⟨v2, none⟩,
        .ok [utf8Encode (generateBulkString (some v2))]) := by
  refine ⟨rfl, ?_, rfl, ?_⟩
  · simp [executeCommand, storeSet]
  · simp [executeCommand, storeSet]

/-- Claim C2: `SET k v PX ms` (modifier compared case-insensitively) stores
`expire_at = now + ms/1000`; a `GET` at a time `t ≤ expire_at` returns the
value, a `GET` at `t > expire_at` returns the null marker, and the read
leaves the store unchanged (lazy expiry: the entry is only judged at read
time, never removed proactively). -/
theorem set_px_get_lazy_expiry (conf : ServerInfo) (store : Store) (k v px : PyStr)
    (ms : Nat) (t0 t : ℚ) (hpx : pyUpper px = str2py ("PX")) (hms : 0 < ms) :
    executeCommand conf .set [k, v, px, renderNat ms] store t0 =
      (storeSet store k ⟨v, some (t0 + (ms : ℚ) / 1000)⟩, .ok [okBytes]) ∧
    (t ≤ t0 + (ms : ℚ) / 1000 →
      executeCommand conf .get [k] (storeSet store k ⟨v, some (t0 + (ms : ℚ) / 1000)⟩) t =
        (storeSet store k ⟨v, some (t0 + (ms : ℚ) / 1000)⟩,
          .ok [utf8Encode (generateBulkString (some v))])) ∧
    (t0 + (ms : ℚ) / 1000 < t →
      executeCommand conf .get [k] (storeSet store k ⟨v, some (t0 + (ms : ℚ) / 1000)⟩) t =
        (storeSet store k ⟨v, some (t0 + (ms : ℚ) / 1000)⟩, .ok [nullBulkBytes])) := by
  refine ⟨?_, ?_, ?_⟩
  · simp [executeCommand, hpx, parsePyIntChars_renderNat, Int.cast_natCast]
  · intro h
    simp [executeCommand, storeSet, not_lt.mpr h]
  · intro h
    simp [executeCommand, storeSet, h]

/-- Claim C2 witness: `SET foo bar PX 1000` at time 0, then `GET foo` at
time 1 (the expiry boundary, a hit) and at time 2 (a miss). -/
theorem set_px_get_lazy_expiry_witness :
    pyUpper (str2py ("px")) = str2py ("PX") ∧ 0 < 1000 ∧
    executeCommand defaultMasterInfo .set
      [str2py ("foo"), str2py ("bar"), str2py ("px"), renderNat 1000] store0 0 =
      (storeSet store0 (str2py ("foo")) ⟨str2py ("bar"), some (0 + (1000 : ℚ) / 1000)⟩,
        .ok [okBytes]) ∧
    executeCommand defaultMasterInfo .get [str2py ("foo")]
      (storeSet store0 (str2py ("foo")) ⟨str2py ("bar"), some (0 + (1000 : ℚ) / 1000)⟩) 1 =
      (storeSet store0 (str2py ("foo")) ⟨str2py ("bar"), some (0 + (1000 : ℚ) / 1000)⟩,
        .ok [utf8Encode (generateBulkString (some (str2py ("bar"))))]) ∧
    executeCommand defaultMasterInfo .get [str2py ("foo")]
      (storeSet store0 (str2py ("foo")) ⟨str2py ("bar"), some (0 + (1000 : ℚ) / 1000)⟩) 2 =
      (storeSet store0 (str2py ("foo")) ⟨str2py ("bar"), some (0 + (1000 : ℚ) / 1000)⟩,
        .ok [nullBulkBytes]) := by
  have hA := set_px_get_lazy_expiry defaultMasterInfo store0 (str2py ("foo")) (str2py ("bar"))
    (str2py ("px")) 1000 0 1 (by decide) (by norm_num)
  have hB := set_px_get_lazy_expiry defaultMasterInfo store0 (str2py ("foo")) (str2py ("bar"))
    (str2py ("px")) 1000 0 2 (by decide) (by norm_num)
  exact ⟨by decide, by norm_num, hA.1, hA.2.1 (by norm_num), hB.2.2 (by norm_num)⟩

/-- Claim C3 (code bug): on the frame `$-1\r\nA` the decoder is claimed to
return a null marker and consume nothing past the header line; the code
instead computes `length = -1 + 2 = 1`, reads one byte past the header
(here the `A` of the next frame, left-over stream `[]`), slices it away
with `[:-2]`, and returns the empty string. -/
theorem bulk_minus_one_decodes_to_empty_string :
    decodeNext (str2py ("$-1\r\nA")) = .ok (.str [], []) ∧
    decodeNext (str2py ("$-1\r\n")) = .ok (.str [], []) ∧
    handleBulkString (str2py ("-1\r\nA")) = .ok ([], []) :=
  ⟨rfl, rfl, rfl⟩

/-- Claim C4 counterexample: dispatching `SET k v PX abc` (non-numeric
expiry) writes no reply bytes at all — in particular no `-ERR` reply — and
the session closes instead of continuing: the dispatcher raises, `run`
catches the exception and the `finally` block closes the connection. -/
theorem bad_set_px_counterexample :
    (runSession defaultMasterInfo store0 0 (encodeCommandFrame
      [str2py ("SET"), str2py ("k"), str2py ("v"), str2py ("PX"), str2py ("abc")])).out = [] ∧
    (runSession defaultMasterInfo store0 0 (encodeCommandFrame
      [str2py ("SET"), str2py ("k"), str2py ("v"), str2py ("PX"), str2py ("abc")])).closed = true ∧
    isErr (executeCommand defaultMasterInfo .set
      [str2py ("k"), str2py ("v"), str2py ("PX"), str2py ("abc")] store0 0).2 = true :=
  ⟨rfl, rfl, rfl⟩

/-- Claim C4 (amended): a `SET` whose milliseconds argument `int()` rejects
raises an exception (writing no reply), and the session that dispatched it
terminates with the connection closed and no bytes — no `-ERR` reply —
written back to the client. -/
theorem bad_set_px_raises_and_session_closes (conf : ServerInfo) (store : Store) (now : ℚ)
    (k v px ms : PyStr) (hpx : pyUpper px = str2py ("PX")) (hms : parsePyIntChars ms = none)
    (hk : ∀ c ∈ k, c < 128) (hv : ∀ c ∈ v, c < 128) (hp : ∀ c ∈ px, c < 128)
    (hm : ∀ c ∈ ms, c < 128) :
    executeCommand conf .set [k, v, px, ms] store now = (store, .error .valueError) ∧
    runSession conf store now
      (encodeCommandFrame [str2py ("SET"), k, v, px, ms]) = ⟨store, [], true⟩ := by
  have hexec : executeCommand conf .set [k, v, px, ms] store now =
      (store, .error .valueError) := by
    simp [executeCommand, hpx, hms]
  refine ⟨hexec, ?_⟩
  have hascii : ∀ a ∈ [str2py ("SET"), k, v, px, ms], ∀ c ∈ a, c < 128 := by
    intro a ha
    simp only [List.mem_cons, List.not_mem_nil, or_false] at ha
    rcases ha with h | h | h | h | h
    · subst h; decide
    · subst h; exact hk
    · subst h; exact hv
    · subst h; exact hp
    · subst h; exact hm
  have hget := getRedisCommand_frame (str2py ("SET")) [k, v, px, ms] .set rfl hascii
  unfold runSession
  simp only [runSessionAux, hget, hexec]

/-- Claim C4 witness: `SET key val px abc` on an empty store. -/
theorem bad_set_px_raises_and_session_closes_witness :
    pyUpper (str2py ("px")) = str2py ("PX") ∧
    parsePyIntChars (str2py ("abc")) = none ∧
    executeCommand defaultMasterInfo .set
      [str2py ("key"), str2py ("val"), str2py ("px"), str2py ("abc")] store0 0 =
      (store0, .error .valueError) ∧
    runSession defaultMasterInfo store0 0
      (encodeCommandFrame [str2py ("SET"), str2py ("key"), str2py ("val"), str2py ("px"),
        str2py ("abc")]) = ⟨store0, [], true⟩ := by
  have h := bad_set_px_raises_and_session_closes defaultMasterInfo store0 0
    (str2py ("key")) (str2py ("val")) (str2py ("px")) (str2py ("abc"))
    (by decide) (by decide) (by decide) (by decide) (by decide) (by decide)
  exact ⟨by decide, by decide, h.1, h.2⟩

/-- Claim C5 counterexample: the INFO replication reply is not the claimed
byte-exact BulkString of the three CRLF-joined lines with `role:MASTER` —
the code renders the `StrEnum` role in lowercase and terminates every line,
including the last, with CRLF. -/
theorem info_replication_reply_counterexample :
    (executeCommand defaultMasterInfo .info [str2py ("replication")] store0 0).2 ≠
      .ok [utf8Encode (generateBulkString (some (str2py
        ("role:MASTER\r\nmaster_replid:8371b4fb1155b71f4a04d3e1bc3e18c4a990aeeb\r\nmaster_repl_offset:0"))))] := by
  decide

/-- Claim C5 (amended): on a standalone server, `INFO replication` replies
with the BulkString whose content is `role:master`, `master_replid:<the
fixed 40-hex id>` and `master_repl_offset:0`, each line (the last included)
terminated by CRLF, byte for byte. -/
theorem info_replication_reply_bytes (store : Store) (now : ℚ) :
    executeCommand defaultMasterInfo .info [str2py ("replication")] store now =
      (store, .ok [utf8Encode (generateBulkString (some (str2py
        ("role:master\r\nmaster_replid:8371b4fb1155b71f4a04d3e1bc3e18c4a990aeeb\r\nmaster_repl_offset:0\r\n"))))]) := by
  have h1 : executeCommand defaultMasterInfo .info [str2py ("replication")] store now =
      (store, .ok [utf8Encode (generateBulkString (some (infoReplicationPayload defaultMasterInfo)))]) := by
    simp [executeCommand]
  rw [h1]
  have h2 : infoReplicationPayload defaultMasterInfo = str2py
      ("role:master\r\nmaster_replid:8371b4fb1155b71f4a04d3e1bc3e18c4a990aeeb\r\nmaster_repl_offset:0\r\n") := by
    decide
  rw [h2]

/-- Claim C6 counterexample: the first PSYNC write is the FULLRESYNC text
wrapped in a BulkString frame by `_generate_bulk_string`, not the bare
SimpleString frame `+FULLRESYNC <id> <offset>\r\n` the claim requires. -/
theorem psync_first_write_counterexample :
    (executeCommand defaultMasterInfo .psync [str2py ("?"), str2py ("-1")] store0 0).2 =
      .ok [utf8Encode (generateBulkString (some (fullresyncText defaultMasterInfo))), rdbFrame] ∧
    utf8Encode (generateBulkString (some (fullresyncText defaultMasterInfo))) ≠
      utf8Encode (str2py ("+FULLRESYNC 8371b4fb1155b71f4a04d3e1bc3e18c4a990aeeb 0\r\n")) :=
  ⟨rfl, by decide⟩

/-- Claim C6 (amended): every PSYNC, regardless of arguments, produces
exactly two writes in order: a BulkString frame whose payload is the text
`+FULLRESYNC <replication_id> <replication_offset>` (not a bare
SimpleString frame), then the fixed snapshot blob framed as a declared
byte count, CRLF, and the raw payload with no trailing CRLF, where the
declared decimal length parses back to the exact payload byte count. -/
theorem psync_reply_structure (conf : ServerInfo) (args : List PyStr) (store : Store) (now : ℚ) :
    executeCommand conf .psync args store now =
      (store, .ok [utf8Encode (generateBulkString (some (fullresyncText conf))), rdbFrame]) ∧
    rdbFrame = str2py ("$") ++ renderNat rdbBlob.length ++ str2py ("\r\n") ++ rdbBlob ∧
    parsePyIntChars (renderNat rdbBlob.length) = some (rdbBlob.length : Int) :=
  ⟨rfl, rfl, parsePyIntChars_renderNat _⟩

/-- Claim C7 counterexample: for the one-character string `é` (code point
233, two UTF-8 bytes) the encoder writes a length prefix of 1 — the CODE
POINT count — so the decoder reads one payload byte, truncates the
two-byte sequence, and fails with a UnicodeDecodeError instead of
round-tripping. -/
theorem bulk_roundtrip_multibyte_counterexample :
    generateBulkString (some [233]) = str2py ("$1\r\né\r\n") ∧
    decodeNext (utf8Encode (generateBulkString (some [233]))) = .error .unicodeDecodeError :=
  ⟨rfl, rfl⟩

/-- Claim C7 (amended): encoding a string as a BulkString frame and decoding
it back yields the string again, with any trailing bytes untouched, for
every string whose code points are all ASCII (< 128) — exactly then the
code-point count the encoder declares equals the byte count the decoder
reads.  Embedded CR, LF or NUL bytes inside the payload are fine. -/
theorem bulk_roundtrip_ascii (s : PyStr) (h : ∀ c ∈ s, c < 128) (rest : Bytes) :
    decodeNext (utf8Encode (generateBulkString (some s)) ++ rest) = .ok (.str s, rest) := by
  unfold decodeNext
  exact parseRespAux_bulk_ascii _ s h rest

/-- Claim C7 witness: the string `hey` round-trips. -/
theorem bulk_roundtrip_ascii_witness :
    (∀ c ∈ str2py ("hey"), c < 128) ∧
    decodeNext (utf8Encode (generateBulkString (some (str2py ("hey")))) ++ []) =
      .ok (.str (str2py ("hey")), []) :=
  ⟨by decide, bulk_roundtrip_ascii (str2py ("hey")) (by decide) []⟩

/-- Claim C8: the replica handshake succeeds exactly when the first three
reply lines strip to `+PONG`, `+OK`, `+OK`; on success it has written
exactly PING, `REPLCONF listening-port <own port>`, `REPLCONF capa psync2`
and `PSYNC ? -1` in that order while reading only three replies (none is
awaited after PSYNC); on any mismatch it stops — one reply read per frame
sent, PSYNC never sent, no retry — and server startup aborts. -/
theorem handshake_fixed_sequence (port : Nat) (replies : List Bytes) :
    ((performHandshakeWithMaster port replies).result = .ok () ↔
      (rstripCRLF (replies.getD 0 []) = str2py ("+PONG") ∧
       rstripCRLF (replies.getD 1 []) = str2py ("+OK") ∧
       rstripCRLF (replies.getD 2 []) = str2py ("+OK"))) ∧
    ((performHandshakeWithMaster port replies).result = .ok () →
      (performHandshakeWithMaster port replies).sent =
        [pingFrame, replconfPortFrame port, replconfCapaFrame, psyncFrame] ∧
      (performHandshakeWithMaster port replies).consumed = 3) ∧
    ((performHandshakeWithMaster port replies).result ≠ .ok () →
      psyncFrame ∉ (performHandshakeWithMaster port replies).sent ∧
      (performHandshakeWithMaster port replies).consumed =
        (performHandshakeWithMaster port replies).sent.length ∧
      replicaStartup port replies ≠ .ok ()) := by
  unfold replicaStartup performHandshakeWithMaster
  split_ifs with h1 h2 h3
  · refine ⟨⟨fun hok => absurd hok (by simp), fun hc => absurd hc.1 h1⟩,
      fun hok => absurd hok (by simp), fun _ => ⟨?_, rfl, by simp⟩⟩
    simp only [List.mem_singleton]
    decide
  · refine ⟨⟨fun hok => absurd hok (by simp), fun hc => absurd hc.2.1 h2⟩,
      fun hok => absurd hok (by simp), fun _ => ⟨?_, rfl, by simp⟩⟩
    simp only [List.mem_cons, List.not_mem_nil, or_false]
    push_neg
    exact ⟨by decide, psyncFrame_ne_replconfPortFrame port⟩
  · refine ⟨⟨fun hok => absurd hok (by simp), fun hc => absurd hc.2.2 h3⟩,
      fun hok => absurd hok (by simp), fun _ => ⟨?_, rfl, by simp⟩⟩
    simp only [List.mem_cons, List.not_mem_nil, or_false]
    push_neg
    exact ⟨by decide, psyncFrame_ne_replconfPortFrame port, by decide⟩
  · simp only [not_not] at h1 h2 h3
    exact ⟨⟨fun _ => ⟨h1, h2, h3⟩, fun _ => rfl⟩, fun _ => ⟨rfl, rfl⟩, fun hne => absurd rfl hne⟩

/-- Claim C8 witness: the handshake of a replica on port 6380 against the
replies `+PONG`, `+OK`, `+OK`. -/
theorem handshake_fixed_sequence_witness :
    (performHandshakeWithMaster 6380
      [str2py ("+PONG\r\n"), str2py ("+OK\r\n"), str2py ("+OK\r\n")]).result = .ok () ∧
    (performHandshakeWithMaster 6380
      [str2py ("+PONG\r\n"), str2py ("+OK\r\n"), str2py ("+OK\r\n")]).sent =
      [pingFrame, replconfPortFrame 6380, replconfCapaFrame, psyncFrame] ∧
    (performHandshakeWithMaster 6380
      [str2py ("+PONG\r\n"), str2py ("+OK\r\n"), str2py ("+OK\r\n")]).consumed = 3 := by
  have h := handshake_fixed_sequence 6380
    [str2py ("+PONG\r\n"), str2py ("+OK\r\n"), str2py ("+OK\r\n")]
  have hok : (performHandshakeWithMaster 6380
      [str2py ("+PONG\r\n"), str2py ("+OK\r\n"), str2py ("+OK\r\n")]).result = .ok () := by
    decide
  exact ⟨hok, (h.2.1 hok).1, (h.2.1 hok).2⟩

/-- Claim C9: a session whose stream yields zero bytes at the type-tag read
terminates with the connection closed and no reply bytes written, and the
decoder itself fails with the empty-first-byte `CommandError` (the spec's
EndOfStream). -/
theorem empty_stream_session_closes_quietly (conf : ServerInfo) (store : Store) (now : ℚ) :
    runSession conf store now [] = ⟨store, [], true⟩ ∧
    decodeNext [] = .error (.commandError (str2py ("Empty data type / first byte."))) :=
  ⟨rfl, rfl⟩

/-- Claim C10: every failing SET invocation — argument count neither 2 nor
4, modifier not case-insensitively PX, or a milliseconds argument `int()`
rejects — raises before the storage assignment, so the store is returned
exactly as it was. -/
theorem failed_set_preserves_store (conf : ServerInfo) (store : Store) (now : ℚ)
    (args : List PyStr) (h : badSetArgs args = true) :
    (executeCommand conf .set args store now).1 = store ∧
    isErr (executeCommand conf .set args store now).2 = true := by
  match args with
  | [] => exact ⟨rfl, rfl⟩
  | [a] => exact ⟨rfl, rfl⟩
  | [a, b] => simp [badSetArgs] at h
  | [a, b, c] => exact ⟨rfl, rfl⟩
  | [a, b, c, d] =>
    by_cases hc : pyUpper c = str2py ("PX")
    · have hd : parsePyIntChars d = none := by
        simp only [badSetArgs, hc, ne_eq] at h
        simpa using h
      simp [executeCommand, hc, hd, isErr]
    · simp [executeCommand, hc, isErr]
  | a :: b :: c :: d :: e :: rest => exact ⟨rfl, rfl⟩

/-- Claim C10 witness: the failing `SET k v PX abc` leaves the empty store
empty. -/
theorem failed_set_preserves_store_witness :
    badSetArgs [str2py ("k"), str2py ("v"), str2py ("PX"), str2py ("abc")] = true ∧
    (executeCommand defaultMasterInfo .set
      [str2py ("k"), str2py ("v"), str2py ("PX"), str2py ("abc")] store0 0).1 = store0 ∧
    isErr (executeCommand defaultMasterInfo .set
      [str2py ("k"), str2py ("v"), str2py ("PX"), str2py ("abc")] store0 0).2 = true := by
  have h := failed_set_preserves_store defaultMasterInfo store0 0
    [str2py ("k"), str2py ("v"), str2py ("PX"), str2py ("abc")] (by decide)
  exact ⟨by decide, h.1, h.2⟩

end RedisFromScratch
